import Mathlib

/-!
# Verification of the Azure SQL DB provisioning core (pkg/services/sqldb)

Shallow embedding of `provision.go` and `types.go` of the sqldb service of
open-service-broker-azure, together with a faithful model of the parts of
the Go standard library (`net.ParseIP`, `net.IP.To4`, `bytes.Compare`) that
`ValidateProvisioningParameters` relies on.  External collaborators
(uuid/identifier/password generation, the Azure environment resolver, the
ARM deployment engine) are modelled at their interface boundary as explicit
parameters, following the spec's component boundaries.
-/

/-! ## Model of Go `net` IP parsing (net/ip.go, as used by the repository)

Go's `net.ParseIP` accepts both dotted-decimal IPv4 and RFC 4291 IPv6
notation; it scans for the first `.` or `:` to dispatch.  An IPv4 parse
yields the 16-byte IPv4-in-IPv6 form.  `To4` projects a 16-byte address to
its 4-byte form exactly when it carries the IPv4-mapped header. -/

/-- Go `net.dtoi`: greedy decimal scan, failing on no digits or on an
accumulated value reaching `big = 0xFFFFFF`.  Returns the value and the
unconsumed remainder. -/
def dtoiLoop : List Char → Nat → Option (Nat × List Char)
  | [], n => some (n, [])
  | c :: rest, n =>
    if '0' ≤ c ∧ c ≤ '9' then
      let n2 := n * 10 + (c.toNat - '0'.toNat)
      if 0xFFFFFF ≤ n2 then none else dtoiLoop rest n2
    else some (n, c :: rest)

/-- Go `net.dtoi` entry point: fails when the first character is not a
decimal digit (zero digits consumed). -/
def dtoi (s : List Char) : Option (Nat × List Char) :=
  match s with
  | [] => none
  | c :: _ => if '0' ≤ c ∧ c ≤ '9' then dtoiLoop s 0 else none

/-- Hexadecimal value of a character, as accepted by Go `net.xtoi`. -/
def hexVal (c : Char) : Option Nat :=
  if '0' ≤ c ∧ c ≤ '9' then some (c.toNat - '0'.toNat)
  else if 'a' ≤ c ∧ c ≤ 'f' then some (c.toNat - 'a'.toNat + 10)
  else if 'A' ≤ c ∧ c ≤ 'F' then some (c.toNat - 'A'.toNat + 10)
  else none

/-- Go `net.xtoi`: greedy hexadecimal scan with the same `big` overflow
bound. -/
def xtoiLoop : List Char → Nat → Option (Nat × List Char)
  | [], n => some (n, [])
  | c :: rest, n =>
    match hexVal c with
    | none => some (n, c :: rest)
    | some d =>
      let n2 := n * 16 + d
      if 0xFFFFFF ≤ n2 then none else xtoiLoop rest n2

/-- Go `net.xtoi` entry point: fails when no hex digit is consumed. -/
def xtoi (s : List Char) : Option (Nat × List Char) :=
  match s with
  | [] => none
  | c :: _ =>
    match hexVal c with
    | none => none
    | some _ => xtoiLoop s 0

/-- Go `net.parseIPv4`, remaining three `.`-separated fields: each field is
a `dtoi` number bounded by 255, and the string must be fully consumed. -/
def parseIPv4Rest : Nat → List Char → Option (List Nat)
  | 0, s => if s.isEmpty then some [] else none
  | k + 1, s =>
    match s with
    | '.' :: s1 =>
      (match dtoi s1 with
       | none => none
       | some (n, rest) =>
         if 255 < n then none else (parseIPv4Rest k rest).map (n :: ·))
    | _ => none

/-- Go `net.parseIPv4`: four dotted-decimal fields, full consumption,
yielding the four address bytes. -/
def parseIPv4 (s : List Char) : Option (List Nat) :=
  match dtoi s with
  | none => none
  | some (n, rest) =>
    if 255 < n then none else (parseIPv4Rest 3 rest).map (n :: ·)

/-- The 12-byte IPv4-in-IPv6 header (`v4InV6Prefix` of Go's net package). -/
def v4InV6Header : List Nat :=
  [0, 0, 0, 0, 0, 0, 0, 0, 0, 0, 0xFF, 0xFF]

/-- One pass of Go `net.parseIPv6`'s main loop (zoneAllowed = false, as
`ParseIP` calls it).  `acc` is the byte buffer filled so far (Go's `i` is
`acc.length`), `ell` the recorded ellipsis position.  Fuel bounds the
iteration count; the loop extends `acc` by two bytes per recursive step so
fuel 8 is never exhausted before `acc` reaches 16 bytes. -/
def parseIPv6Loop : Nat → List Char → List Nat → Option Nat →
    Option (List Nat × Option Nat)
  | fuel, s, acc, ell =>
    if 16 ≤ acc.length then (if s.isEmpty then some (acc, ell) else none)
    else
      match fuel with
      | 0 => none
      | fuel' + 1 =>
        match xtoi s with
        | none => none
        | some (n, rest) =>
          if 0xFFFF < n then none
          else if rest.head? = some '.' then
            -- trailing dotted-decimal IPv4 group
            if ell = none ∧ acc.length ≠ 12 then none
            else if 16 < acc.length + 4 then none
            else
              match parseIPv4 s with
              | none => none
              | some b4 => some (acc ++ b4, ell)
          else
            let acc2 := acc ++ [n / 256, n % 256]
            match rest with
            | [] => some (acc2, ell)
            | c :: rest2 =>
              if c ≠ ':' then none
              else if rest2.isEmpty then none
              else
                match rest2 with
                | ':' :: rest3 =>
                  if ell.isSome then none
                  else if rest3.isEmpty then some (acc2, some acc2.length)
                  else parseIPv6Loop fuel' rest3 acc2 (some acc2.length)
                | _ => parseIPv6Loop fuel' rest2 acc2 ell

/-- Post-loop completion of Go `net.parseIPv6`: expand the ellipsis to the
missing zero bytes, rejecting an ellipsis that stands for no group. -/
def ipv6Finish (acc : List Nat) (ell : Option Nat) : Option (List Nat) :=
  if acc.length < 16 then
    match ell with
    | none => none
    | some e =>
      some (acc.take e ++ List.replicate (16 - acc.length) 0 ++ acc.drop e)
  else
    match ell with
    | some _ => none
    | none => some acc

/-- Go `net.parseIPv6` (zoneAllowed = false): optional leading `::`, then
the group loop, then ellipsis expansion. -/
def parseIPv6 (s : List Char) : Option (List Nat) :=
  match s with
  | ':' :: ':' :: rest =>
    if rest.isEmpty then some (List.replicate 16 0)
    else
      match parseIPv6Loop 8 rest [] (some 0) with
      | none => none
      | some (acc, ell) => ipv6Finish acc ell
  | _ =>
    match parseIPv6Loop 8 s [] none with
    | none => none
    | some (acc, ell) => ipv6Finish acc ell

/-- Go `net.ParseIP`'s dispatch scan: the first `.` routes to the IPv4
parser (on the whole original string), the first `:` to the IPv6 parser. -/
def parseIPDispatch (orig : List Char) : List Char → Option (List Nat)
  | [] => none
  | c :: rest =>
    if c = '.' then (parseIPv4 orig).map (fun b => v4InV6Header ++ b)
    else if c = ':' then parseIPv6 orig
    else parseIPDispatch orig rest

/-- Go `net.ParseIP`: `none` models the nil `net.IP`. -/
def goParseIP (s : String) : Option (List Nat) :=
  parseIPDispatch s.toList s.toList

/-- Go `net.IP.To4`: a 4-byte address is itself; a 16-byte address with the
IPv4-mapped header projects to its last 4 bytes; anything else is nil. -/
def goTo4 (ip : List Nat) : Option (List Nat) :=
  if ip.length = 4 then some ip
  else if ip.length = 16 ∧ ip.take 12 = v4InV6Header then some (ip.drop 12)
  else none

/-- Go `bytes.Compare` (lexicographic, -1/0/1). -/
def bytesCompare : List Nat → List Nat → Int
  | [], [] => 0
  | [], _ :: _ => -1
  | _ :: _, [] => 1
  | a :: as, b :: bs =>
    if a < b then -1 else if b < a then 1 else bytesCompare as bs

/-- The byte string that `bytes.Compare` sees for `ip.To4()` where `ip` may
be the nil result of `ParseIP` and `To4` may itself return nil: a nil Go
byte slice compares as the empty string. -/
def asCompareBytes (ip : Option (List Nat)) : List Nat :=
  match ip with
  | none => []
  | some p =>
    match goTo4 p with
    | none => []
    | some b => b

/-! ## Data model (types.go) -/

/-- `ProvisioningParameters` of types.go. -/
structure ProvisioningParameters where
  ServerName : String
  FirewallIPStart : String
  FirewallIPEnd : String
deriving DecidableEq

/-- `ServerConfig` of types.go: one registry entry. -/
structure ServerConfig where
  ServerName : String
  ResourceGroupName : String
  Location : String
  AdministratorLogin : String
  AdministratorLoginPassword : String
deriving DecidableEq

/-- The `Servers` map of `Config` (types.go), as an association list keyed
by server name. -/
abbrev Registry := List (String × ServerConfig)

/-- `mssqlProvisioningContext` of types.go. -/
structure MssqlProvisioningContext where
  ARMDeploymentName : String
  ServerName : String
  IsNewServer : Bool
  AdministratorLogin : String
  AdministratorLoginPassword : String
  DatabaseName : String
  FullyQualifiedDomainName : String
deriving DecidableEq

/-- `GetEmptyProvisioningContext` of types.go returns the zero value. -/
def emptyProvisioningContext : MssqlProvisioningContext :=
  ⟨"", "", false, "", "", "", ""⟩

/-- A `service.ProvisioningParameters` interface value: either the mssql
concrete type or some other implementation (the type assertion fails). -/
inductive PPValue where
  | mssqlPP (pp : ProvisioningParameters)
  | otherPP
deriving DecidableEq

/-- A `service.ProvisioningContext` interface value. -/
inductive PCValue where
  | mssqlPC (pc : MssqlProvisioningContext)
  | otherPC
deriving DecidableEq

/-- A Go error as returned by this package: either a
`service.NewValidationError` (field-scoped) or a plain
`errors.New`/`fmt.Errorf` error. -/
inductive GoErr where
  | validation (field msg : String)
  | plain (msg : String)
deriving DecidableEq

/-- Whether a returned error value is absent or a field-scoped validation
error. -/
def isFieldScoped : Option GoErr → Bool
  | none => true
  | some (.validation _ _) => true
  | some (.plain _) => false

/-! ## ValidateProvisioningParameters (provision.go, lines 17-80) -/

/-- `ValidateProvisioningParameters` of provision.go: type assertion, server
name lookup, both-or-neither firewall bounds, `net.ParseIP` on each bound,
then `bytes.Compare` on the `To4` forms. -/
def validateProvisioningParameters (servers : Registry) (v : PPValue) :
    Option GoErr :=
  match v with
  | .otherPP =>
    some (.plain
      "error casting provisioningParameters as *mssql.ProvisioningParameters")
  | .mssqlPP pp =>
    if pp.ServerName ≠ "" ∧ servers.lookup pp.ServerName = none then
      some (.validation "serverName"
        ("can\x27t find serverName \"" ++ pp.ServerName ++
          "\" in Azure SQL Server configuration"))
    else if (pp.FirewallIPStart ≠ "" ∨ pp.FirewallIPEnd ≠ "") ∧
        pp.FirewallIPStart = "" then
      some (.validation "firewallStartIPAddress"
        "must be set when firewallEndIPAddress is set")
    else if (pp.FirewallIPStart ≠ "" ∨ pp.FirewallIPEnd ≠ "") ∧
        pp.FirewallIPEnd = "" then
      some (.validation "firewallEndIPAddress"
        "must be set when firewallStartIPAddress is set")
    else if pp.FirewallIPStart ≠ "" ∧ goParseIP pp.FirewallIPStart = none then
      some (.validation "firewallStartIPAddress"
        ("invalid value: \"" ++ pp.FirewallIPStart ++ "\""))
    else if pp.FirewallIPEnd ≠ "" ∧ goParseIP pp.FirewallIPEnd = none then
      some (.validation "firewallEndIPAddress"
        ("invalid value: \"" ++ pp.FirewallIPEnd ++ "\""))
    else if 0 < bytesCompare (asCompareBytes (goParseIP pp.FirewallIPStart))
        (asCompareBytes (goParseIP pp.FirewallIPEnd)) then
      some (.validation "firewallEndIPAddress"
        ("invalid value: \"" ++ pp.FirewallIPEnd ++
          "\". must be \n\t\t\t\tgreater than or equal to firewallStartIPAddress"))
    else
      none

/-! ## External collaborators, at their interface boundary -/

/-- The identifier/secret generation collaborators (`uuid.NewV4`,
`generate.NewIdentifier`, `generate.NewPassword`), modelled as streams of
values indexed by call site: in a single step execution the n-th call of a
given kind yields the n-th stream element. -/
structure Generator where
  uuids : Nat → String
  identifiers : Nat → String
  passwords : Nat → String

/-- A value of Go type `interface` as stored in the string-keyed maps this
package exchanges with the plan metadata and the deployment engine: the nil
interface, a string, or some other dynamic type. -/
inductive GoValue where
  | nil
  | str (s : String)
  | other (tag : Nat)
deriving DecidableEq

/-- Indexing a Go `map[string]interface` value: a missing key reads as the
nil interface. -/
def mapGet (m : List (String × GoValue)) (k : String) : GoValue :=
  match m.lookup k with
  | some v => v
  | none => .nil

/-- The plan metadata consumed here: `plan.GetProperties().Extended`. -/
structure Plan where
  Extended : List (String × GoValue)

/-- `instance.StandardProvisioningContext`. -/
structure StandardProvisioningContext where
  ResourceGroup : String
  Location : String
  Tags : List (String × String)
deriving DecidableEq

/-- The fields of `service.Instance` that provision.go reads. -/
structure ServiceInstance where
  ProvisioningContext : PCValue
  ProvisioningParameters : PPValue
  StandardProvisioningContext : StandardProvisioningContext

/-! ## preProvision (provision.go, lines 91-153)

Go mutates the instance's context object through a pointer and returns
either that object or an error; the embedding returns the pair of (final
state of the context object, function result), so that mutation on error
paths stays observable. -/

/-- `preProvision` of provision.go.  `resolveEnv` stands for the
`azure.GetConfig` / `az.EnvironmentFromName` collaborator pair and yields
the environment's `SQLDatabaseDNSSuffix`; errors propagate verbatim. -/
def preProvisionGo (g : Generator) (resolveEnv : Except String String)
    (servers : Registry) (pcv : PCValue) (ppv : PPValue) :
    PCValue × Except String MssqlProvisioningContext :=
  match pcv with
  | .otherPC =>
    (pcv, .error
      "error casting instance.ProvisioningContext as *mssqlProvisioningContext")
  | .mssqlPC pc =>
    match ppv with
    | .otherPP =>
      (pcv, .error
        "error casting instance.ProvisioningParameters as *mssql.ProvisioningParameters")
    | .mssqlPP pp =>
      if pp.ServerName = "" then
        -- new server scenario
        let pc1 := { pc with
          ARMDeploymentName := g.uuids 0
          ServerName := g.uuids 1
          IsNewServer := true
          AdministratorLogin := g.identifiers 0
          AdministratorLoginPassword := g.passwords 0
          DatabaseName := g.identifiers 1 }
        (.mssqlPC pc1, .ok pc1)
      else
        -- existing server scenario
        match servers.lookup pp.ServerName with
        | none =>
          (.mssqlPC pc, .error
            ("can\x27t find serverName \"" ++ pp.ServerName ++
              "\" in Azure SQL Server configuration"))
        | some server =>
          let pc1 := { pc with
            ARMDeploymentName := g.uuids 0
            ServerName := server.ServerName
            IsNewServer := false
            AdministratorLogin := server.AdministratorLogin
            AdministratorLoginPassword := server.AdministratorLoginPassword
            DatabaseName := g.identifiers 0 }
          match resolveEnv with
          | .error e => (.mssqlPC pc1, .error e)
          | .ok suffix =>
            let pc2 := { pc1 with
              FullyQualifiedDomainName := server.ServerName ++ "." ++ suffix }
            (.mssqlPC pc2, .ok pc2)

/-! ## buildARMTemplateParameters (provision.go, lines 155-181) -/

/-- `buildARMTemplateParameters` of provision.go: the seven always-present
entries, then the firewall entries only when the request field is
non-empty. -/
def buildARMTemplateParameters (plan : Plan)
    (provisioningContext : MssqlProvisioningContext)
    (provisioningParameters : ProvisioningParameters) :
    List (String × GoValue) :=
  let p : List (String × GoValue) :=
    [("serverName", .str provisioningContext.ServerName),
     ("administratorLogin", .str provisioningContext.AdministratorLogin),
     ("administratorLoginPassword",
       .str provisioningContext.AdministratorLoginPassword),
     ("databaseName", .str provisioningContext.DatabaseName),
     ("edition", mapGet plan.Extended "edition"),
     ("requestedServiceObjectiveName",
       mapGet plan.Extended "requestedServiceObjectiveName"),
     ("maxSizeBytes", mapGet plan.Extended "maxSizeBytes")]
  let p2 :=
    if provisioningParameters.FirewallIPStart ≠ "" then
      p ++ [("firewallStartIpAddress",
        .str provisioningParameters.FirewallIPStart)]
    else p
  let p3 :=
    if provisioningParameters.FirewallIPEnd ≠ "" then
      p2 ++ [("firewallEndIpAddress",
        .str provisioningParameters.FirewallIPEnd)]
    else p2
  p3

/-! ## deployARMTemplate (provision.go, lines 183-258) -/

/-- Which of the two embedded ARM templates is passed to the engine
(`armTemplateNewServerBytes` / `armTemplateExistingServerBytes`). -/
inductive ArmTemplate where
  | newServer
  | existingServer
deriving DecidableEq

/-- One invocation of `armDeployer.Deploy`, with every argument the code
passes (the Go-template parameter argument is always nil here and is
omitted). -/
structure DeployCall where
  deploymentName : String
  resourceGroup : String
  location : String
  template : ArmTemplate
  params : List (String × GoValue)
  tags : List (String × String)

/-- The deployment engine collaborator: a call either fails or returns the
outputs map. -/
abbrev Deployer := DeployCall → Except String (List (String × GoValue))

/-- `deployARMTemplate` of provision.go.  The first component records the
`armDeployer.Deploy` invocations made, the second the final state of the
instance's context object, the third the function result. -/
def deployARMTemplateGo (deployer : Deployer) (servers : Registry)
    (inst : ServiceInstance) (plan : Plan) :
    List DeployCall × PCValue × Except String MssqlProvisioningContext :=
  match inst.ProvisioningContext with
  | .otherPC =>
    ([], inst.ProvisioningContext, .error
      "error casting instance.ProvisioningContext as *mssqlProvisioningContext")
  | .mssqlPC pc =>
    match inst.ProvisioningParameters with
    | .otherPP =>
      ([], inst.ProvisioningContext, .error
        "error casting instance.ProvisioningParameters as *mssql.ProvisioningParameters")
    | .mssqlPP pp =>
      if pc.IsNewServer then
        -- new server scenario
        let armTemplateParameters := buildARMTemplateParameters plan pc pp
        let call : DeployCall :=
          { deploymentName := pc.ARMDeploymentName
            resourceGroup := inst.StandardProvisioningContext.ResourceGroup
            location := inst.StandardProvisioningContext.Location
            template := .newServer
            params := armTemplateParameters
            tags := inst.StandardProvisioningContext.Tags }
        match deployer call with
        | .error e =>
          ([call], .mssqlPC pc, .error ("error deploying ARM template: " ++ e))
        | .ok outputs =>
          match mapGet outputs "fullyQualifiedDomainName" with
          | .str fqdn =>
            let pc1 := { pc with FullyQualifiedDomainName := fqdn }
            ([call], .mssqlPC pc1, .ok pc1)
          | _ =>
            ([call], .mssqlPC pc, .error
              "error retrieving fully qualified domain name from deployment: %!s(<nil>)")
      else
        -- existing server scenario
        match servers.lookup pp.ServerName with
        | none =>
          ([], .mssqlPC pc, .error
            ("can\x27t find serverName \"" ++ pp.ServerName ++
              "\" in Azure SQL Server configuration"))
        | some server =>
          let call : DeployCall :=
            { deploymentName := pc.ARMDeploymentName
              resourceGroup := server.ResourceGroupName
              location := server.Location
              template := .existingServer
              params :=
                [("serverName", .str pc.ServerName),
                 ("databaseName", .str pc.DatabaseName),
                 ("edition", mapGet plan.Extended "edition"),
                 ("requestedServiceObjectiveName",
                   mapGet plan.Extended "requestedServiceObjectiveName"),
                 ("maxSizeBytes", mapGet plan.Extended "maxSizeBytes")]
              tags := inst.StandardProvisioningContext.Tags }
          match deployer call with
          | .error e =>
            ([call], .mssqlPC pc, .error ("error deploying ARM template: " ++ e))
          | .ok _ =>
            ([call], .mssqlPC pc, .ok pc)

/-! ## Sanity checks of the ParseIP model and the validator -/

example : goParseIP "1.2.3.4" = some (v4InV6Header ++ [1, 2, 3, 4]) := by decide
example : goParseIP "" = none := by decide
example : goParseIP "banana" = none := by decide
example : goParseIP "10.0.1.0" = some (v4InV6Header ++ [10, 0, 1, 0]) := by decide
example : goParseIP "256.1.1.1" = none := by decide
example : (goParseIP "::1").isSome := by decide
example : goParseIP "::" = some (List.replicate 16 0) := by decide
example : (goParseIP "::ffff:1.2.3.4").map goTo4 = some (some [1, 2, 3, 4]) := by
  decide
example : (goParseIP "::1").map goTo4 = some none := by decide
example :
    validateProvisioningParameters []
      (.mssqlPP ⟨"", "10.0.0.1", "10.0.0.255"⟩) = none := by decide
example :
    validateProvisioningParameters []
      (.mssqlPP ⟨"", "10.0.1.0", "10.0.0.1"⟩) =
      some (.validation "firewallEndIPAddress"
        ("invalid value: \"10.0.0.1\". must be \n\t\t\t\t" ++
          "greater than or equal to firewallStartIPAddress")) := by decide

/-! ## Claim C1 -/

/-- C1, counterexample: the firewall start `"::1"` is a non-empty string
that is not a valid IPv4 address, yet `ValidateProvisioningParameters`
returns no error at all — `net.ParseIP` accepts it as an IPv6 address, its
`To4` form is nil, and the ordering comparison treats nil as the empty byte
string, which compares below the end address.  The claimed rejection on
`firewallStartIPAddress` does not happen. -/
theorem sqldb_C1_counterexample :
    validateProvisioningParameters []
      (.mssqlPP ⟨"", "::1", "1.2.3.4"⟩) = none ∧
    (goParseIP "::1").map goTo4 = some none := by
  exact ⟨by decide, by decide⟩

/-- C1, amended: a non-empty firewall bound that `net.ParseIP` rejects
outright (garbage text) yields a validation error on the corresponding
field before the ordering comparison; but a bound that parses as a
non-IPv4 IP address (e.g. IPv6) is not rejected, and the ordering
comparison then runs on its nil `To4` form.  This theorem proves the
rejection half for unparseable bounds, on the start field and on the end
field. -/
theorem sqldb_C1_amended (servers : Registry) (pp : ProvisioningParameters)
    (hname : pp.ServerName = "" ∨ (servers.lookup pp.ServerName).isSome)
    (hs : pp.FirewallIPStart ≠ "") (he : pp.FirewallIPEnd ≠ "") :
    (goParseIP pp.FirewallIPStart = none →
      validateProvisioningParameters servers (.mssqlPP pp) =
        some (.validation "firewallStartIPAddress"
          ("invalid value: \"" ++ pp.FirewallIPStart ++ "\""))) ∧
    (goParseIP pp.FirewallIPStart ≠ none → goParseIP pp.FirewallIPEnd = none →
      validateProvisioningParameters servers (.mssqlPP pp) =
        some (.validation "firewallEndIPAddress"
          ("invalid value: \"" ++ pp.FirewallIPEnd ++ "\""))) := by
  have h1 : ¬(pp.ServerName ≠ "" ∧ servers.lookup pp.ServerName = none) := by
    rcases hname with h | h
    · simp [h]
    · intro hc
      rw [hc.2] at h
      simp at h
  constructor
  · intro hps
    simp only [validateProvisioningParameters]
    rw [if_neg h1, if_neg (by simp [hs]), if_neg (by simp [he]),
      if_pos ⟨hs, hps⟩]
  · intro hps hpe
    simp only [validateProvisioningParameters]
    rw [if_neg h1, if_neg (by simp [hs]), if_neg (by simp [he]),
      if_neg (by simp [hps]), if_pos ⟨he, hpe⟩]

/-- C1, witness for the amended theorem: the garbage start `"banana"` is
rejected on `firewallStartIPAddress`, and with a well-formed start the
garbage end `"banana"` is rejected on `firewallEndIPAddress`. -/
theorem sqldb_C1_amended_witness :
    validateProvisioningParameters []
      (.mssqlPP ⟨"", "banana", "1.2.3.4"⟩) =
      some (.validation "firewallStartIPAddress"
        ("invalid value: \"" ++ "banana" ++ "\"")) ∧
    validateProvisioningParameters []
      (.mssqlPP ⟨"", "1.2.3.4", "banana"⟩) =
      some (.validation "firewallEndIPAddress"
        ("invalid value: \"" ++ "banana" ++ "\"")) :=
  ⟨(sqldb_C1_amended [] ⟨"", "banana", "1.2.3.4"⟩ (Or.inl rfl)
      (by decide) (by decide)).1 (by decide),
   (sqldb_C1_amended [] ⟨"", "1.2.3.4", "banana"⟩ (Or.inl rfl)
      (by decide) (by decide)).2 (by decide) (by decide)⟩

/-! ## Claim C2 -/

/-- C2, counterexample: for the request with empty server name, firewall
start `"1.2.3.4"` and end `"1.2.3.10"`, resolution (with a concrete
generator) produces the new-server context shown, and the parameter map
built from it has 9 distinct keys, not 7: the seven always-present keys
plus both firewall keys. -/
theorem sqldb_C2_counterexample :
    (preProvisionGo
        ⟨fun n => if n = 0 then "u0" else "u1",
         fun n => if n = 0 then "id0" else "id1",
         fun _ => "pw0"⟩
        (.ok "database.windows.net") []
        (.mssqlPC emptyProvisioningContext)
        (.mssqlPP ⟨"", "1.2.3.4", "1.2.3.10"⟩)).2 =
      .ok ⟨"u0", "u1", true, "id0", "pw0", "id1", ""⟩ ∧
    ¬(((buildARMTemplateParameters
        ⟨[("edition", .str "Basic"),
          ("requestedServiceObjectiveName", .str "Basic"),
          ("maxSizeBytes", .str "2147483648")]⟩
        ⟨"u0", "u1", true, "id0", "pw0", "id1", ""⟩
        ⟨"", "1.2.3.4", "1.2.3.10"⟩).map Prod.fst).dedup.length = 7) := by
  exact ⟨rfl, by decide⟩

/-- C2, amended: for that request, the parameter map produced by
`buildARMTemplateParameters` from the resolved new-server context contains
exactly 9 keys — the seven always-present ones and both firewall address
keys. -/
theorem sqldb_C2_amended (g : Generator) (env : Except String String)
    (servers : Registry) (plan : Plan) (pc : MssqlProvisioningContext)
    (_h : (preProvisionGo g env servers (.mssqlPC emptyProvisioningContext)
        (.mssqlPP ⟨"", "1.2.3.4", "1.2.3.10"⟩)).2 = .ok pc) :
    ((buildARMTemplateParameters plan pc
        ⟨"", "1.2.3.4", "1.2.3.10"⟩).map Prod.fst) =
      ["serverName", "administratorLogin", "administratorLoginPassword",
       "databaseName", "edition", "requestedServiceObjectiveName",
       "maxSizeBytes", "firewallStartIpAddress", "firewallEndIpAddress"] ∧
    ((buildARMTemplateParameters plan pc
        ⟨"", "1.2.3.4", "1.2.3.10"⟩).map Prod.fst).dedup.length = 9 := by
  constructor
  · simp [buildARMTemplateParameters]
  · simp [buildARMTemplateParameters]

/-- C2, witness for the amended theorem at a concrete generator and plan. -/
theorem sqldb_C2_amended_witness :
    ((buildARMTemplateParameters
        ⟨[("edition", .str "Basic"),
          ("requestedServiceObjectiveName", .str "Basic"),
          ("maxSizeBytes", .str "2147483648")]⟩
        ⟨"u0", "u1", true, "id0", "pw0", "id1", ""⟩
        ⟨"", "1.2.3.4", "1.2.3.10"⟩).map Prod.fst) =
      ["serverName", "administratorLogin", "administratorLoginPassword",
       "databaseName", "edition", "requestedServiceObjectiveName",
       "maxSizeBytes", "firewallStartIpAddress", "firewallEndIpAddress"] :=
  (sqldb_C2_amended
      ⟨fun n => if n = 0 then "u0" else "u1",
       fun n => if n = 0 then "id0" else "id1",
       fun _ => "pw0"⟩
      (.ok "database.windows.net") []
      ⟨[("edition", .str "Basic"),
        ("requestedServiceObjectiveName", .str "Basic"),
        ("maxSizeBytes", .str "2147483648")]⟩
      ⟨"u0", "u1", true, "id0", "pw0", "id1", ""⟩ rfl).1

/-! ## Claim C4 -/

/-- Shape of the validator result on a well-typed request: no error, or a
field-scoped validation error whose field is one of the three request
fields and whose message is non-empty. -/
theorem validate_mssql_shape (servers : Registry) (pp : ProvisioningParameters) :
    validateProvisioningParameters servers (.mssqlPP pp) = none ∨
    ∃ f m, validateProvisioningParameters servers (.mssqlPP pp) =
        some (.validation f m) ∧
      f ∈ ["serverName", "firewallStartIPAddress", "firewallEndIPAddress"] ∧
      0 < m.length := by
  simp only [validateProvisioningParameters]
  split
  · right
    exact ⟨_, _, rfl, by decide, by
      simp [String.length_append]
      exact Or.inr (by decide)⟩
  split
  · right
    exact ⟨_, _, rfl, by decide, by decide⟩
  split
  · right
    exact ⟨_, _, rfl, by decide, by decide⟩
  split
  · right
    exact ⟨_, _, rfl, by decide, by
      simp [String.length_append]
      exact Or.inr (by decide)⟩
  split
  · right
    exact ⟨_, _, rfl, by decide, by
      simp [String.length_append]
      exact Or.inr (by decide)⟩
  split
  · right
    exact ⟨_, _, rfl, by decide, by
      simp [String.length_append]
      exact Or.inr (by decide)⟩
  · left
    rfl

/-- C4, counterexample: the entry point also accepts a
`service.ProvisioningParameters` value of a different concrete type; there
the type assertion fails and the result is a plain error, not a
field-scoped validation error. -/
theorem sqldb_C4_counterexample :
    isFieldScoped (validateProvisioningParameters [] .otherPP) = false ∧
    validateProvisioningParameters [] .otherPP =
      some (.plain
        "error casting provisioningParameters as *mssql.ProvisioningParameters") := by
  exact ⟨rfl, rfl⟩

/-- C4, amended: for every input whose concrete type is the mssql
`ProvisioningParameters` (the type assertion succeeds), the result is
either no error or a field-scoped validation error carrying one of the
three request field names and a non-empty human-readable message; an input
of any other concrete type yields a plain cast error instead.  The
embedding is a pure function of the request and the registry, reflecting
that the code reads but never mutates either. -/
theorem sqldb_C4_amended (servers : Registry) (pp : ProvisioningParameters) :
    isFieldScoped (validateProvisioningParameters servers (.mssqlPP pp)) = true ∧
    (∀ f m, validateProvisioningParameters servers (.mssqlPP pp) =
        some (.validation f m) →
      f ∈ ["serverName", "firewallStartIPAddress", "firewallEndIPAddress"] ∧
      m ≠ "") := by
  rcases validate_mssql_shape servers pp with h | ⟨f, m, h, hf, hm⟩
  · rw [h]
    refine ⟨rfl, ?_⟩
    intro f m hc
    cases hc
  · rw [h]
    refine ⟨rfl, ?_⟩
    intro f2 m2 hc
    obtain ⟨rfl, rfl⟩ : f = f2 ∧ m = m2 := by
      cases hc
      exact ⟨rfl, rfl⟩
    refine ⟨hf, ?_⟩
    intro hme
    rw [hme] at hm
    simp at hm

/-- C4, witness for the amended theorem at a concrete well-typed request. -/
theorem sqldb_C4_amended_witness :
    isFieldScoped (validateProvisioningParameters []
      (.mssqlPP ⟨"absent", "", ""⟩)) = true :=
  (sqldb_C4_amended [] ⟨"absent", "", ""⟩).1

/-! ## Claim C7 -/

/-- C7: the parameter map contains `firewallStartIpAddress` exactly when
the request's firewall start is non-empty, and then maps it to the literal
request value; likewise for `firewallEndIpAddress` and the firewall end. -/
theorem sqldb_C7_firewall_keys (plan : Plan) (pc : MssqlProvisioningContext)
    (pp : ProvisioningParameters) :
    ((buildARMTemplateParameters plan pc pp).lookup "firewallStartIpAddress"
        ≠ none ↔ pp.FirewallIPStart ≠ "") ∧
    (pp.FirewallIPStart ≠ "" →
      (buildARMTemplateParameters plan pc pp).lookup "firewallStartIpAddress" =
        some (.str pp.FirewallIPStart)) ∧
    ((buildARMTemplateParameters plan pc pp).lookup "firewallEndIpAddress"
        ≠ none ↔ pp.FirewallIPEnd ≠ "") ∧
    (pp.FirewallIPEnd ≠ "" →
      (buildARMTemplateParameters plan pc pp).lookup "firewallEndIpAddress" =
        some (.str pp.FirewallIPEnd)) := by
  by_cases hs : pp.FirewallIPStart = "" <;> by_cases he : pp.FirewallIPEnd = "" <;>
    simp [buildARMTemplateParameters, hs, he, List.lookup]

/-- C7, witness at a concrete plan, context and request with only the end
bound set: the start key is absent, the end key carries the request
value. -/
theorem sqldb_C7_firewall_keys_witness :
    ((buildARMTemplateParameters ⟨[]⟩ emptyProvisioningContext
        ⟨"", "", "9.9.9.9"⟩).lookup "firewallEndIpAddress" =
      some (.str "9.9.9.9")) ∧
    ¬((buildARMTemplateParameters ⟨[]⟩ emptyProvisioningContext
        ⟨"", "", "9.9.9.9"⟩).lookup "firewallStartIpAddress" ≠ none) :=
  ⟨(sqldb_C7_firewall_keys ⟨[]⟩ emptyProvisioningContext
      ⟨"", "", "9.9.9.9"⟩).2.2.2 (by decide),
   fun hc =>
    hc (by
      have := (sqldb_C7_firewall_keys ⟨[]⟩ emptyProvisioningContext
        ⟨"", "", "9.9.9.9"⟩).1
      by_cases hn : (buildARMTemplateParameters ⟨[]⟩ emptyProvisioningContext
          ⟨"", "", "9.9.9.9"⟩).lookup "firewallStartIpAddress" = none
      · exact hn
      · exact absurd (this.mp hn) (by decide))⟩

/-! ## Claim C3 -/

/-- C3: whenever both firewall bounds parse to IPv4 values (in particular
for every pair of valid dotted-decimal IPv4 strings) and the server name is
empty or registered, validation succeeds iff the 4-byte big-endian form of
the start is lexicographically at most that of the end; on failure the
error is scoped to `firewallEndIPAddress`. -/
theorem sqldb_C3_ordering (servers : Registry) (pp : ProvisioningParameters)
    (ipS ipE bS bE : List Nat)
    (hname : pp.ServerName = "" ∨ (servers.lookup pp.ServerName).isSome)
    (hS : goParseIP pp.FirewallIPStart = some ipS)
    (hS4 : goTo4 ipS = some bS)
    (hE : goParseIP pp.FirewallIPEnd = some ipE)
    (hE4 : goTo4 ipE = some bE) :
    (validateProvisioningParameters servers (.mssqlPP pp) = none ↔
      bytesCompare bS bE ≤ 0) ∧
    (0 < bytesCompare bS bE →
      ∃ msg, validateProvisioningParameters servers (.mssqlPP pp) =
        some (.validation "firewallEndIPAddress" msg)) := by
  have h1 : ¬(pp.ServerName ≠ "" ∧ servers.lookup pp.ServerName = none) := by
    rcases hname with h | h
    · simp [h]
    · intro hc
      rw [hc.2] at h
      simp at h
  have hs : pp.FirewallIPStart ≠ "" := by
    intro h
    rw [h] at hS
    have he0 : goParseIP "" = none := rfl
    rw [he0] at hS
    cases hS
  have he : pp.FirewallIPEnd ≠ "" := by
    intro h
    rw [h] at hE
    have he0 : goParseIP "" = none := rfl
    rw [he0] at hE
    cases hE
  have hred : validateProvisioningParameters servers (.mssqlPP pp) =
      if 0 < bytesCompare bS bE then
        some (.validation "firewallEndIPAddress"
          ("invalid value: \"" ++ pp.FirewallIPEnd ++
            "\". must be \n\t\t\t\tgreater than or equal to firewallStartIPAddress"))
      else none := by
    simp only [validateProvisioningParameters]
    rw [if_neg h1, if_neg (by simp [hs]), if_neg (by simp [he]),
      if_neg (by simp [hS]), if_neg (by simp [hE]), hS, hE]
    simp only [asCompareBytes, hS4, hE4]
  rw [hred]
  by_cases hc : 0 < bytesCompare bS bE
  · rw [if_pos hc]
    constructor
    · constructor
      · intro h
        cases h
      · intro h
        omega
    · intro _
      exact ⟨_, rfl⟩
  · rw [if_neg hc]
    constructor
    · constructor
      · intro _
        omega
      · intro _
        rfl
    · intro h
      exact absurd h hc

/-- C3, witness: `10.0.0.1 ≤ 10.0.0.255` is accepted, instantiating the
ordering theorem at concrete dotted-decimal IPv4 bounds. -/
theorem sqldb_C3_ordering_witness :
    validateProvisioningParameters []
      (.mssqlPP ⟨"", "10.0.0.1", "10.0.0.255"⟩) = none :=
  (sqldb_C3_ordering [] ⟨"", "10.0.0.1", "10.0.0.255"⟩
      (v4InV6Header ++ [10, 0, 0, 1]) (v4InV6Header ++ [10, 0, 0, 255])
      [10, 0, 0, 1] [10, 0, 0, 255] (Or.inl rfl)
      (by decide) (by decide) (by decide) (by decide)).1.mpr (by decide)

/-! ## Claim C5 -/

/-- C5: for a request naming a registered server (with environment
resolution succeeding, as the claim's reference to the resolved suffix
presupposes), `preProvision` returns a context copying the registry
entry's administrator login and password byte for byte, with the
new-server flag false and the domain name equal to the entry's server
name, a dot, and the resolved SQL database DNS suffix. -/
theorem sqldb_C5_existing_server (g : Generator) (servers : Registry)
    (suffix : String) (pp : ProvisioningParameters)
    (pc0 : MssqlProvisioningContext) (server : ServerConfig)
    (hn : pp.ServerName ≠ "")
    (hlook : servers.lookup pp.ServerName = some server) :
    ∃ pc, (preProvisionGo g (.ok suffix) servers (.mssqlPC pc0)
        (.mssqlPP pp)).2 = .ok pc ∧
      pc.AdministratorLogin = server.AdministratorLogin ∧
      pc.AdministratorLoginPassword = server.AdministratorLoginPassword ∧
      pc.IsNewServer = false ∧
      pc.FullyQualifiedDomainName = server.ServerName ++ "." ++ suffix := by
  simp only [preProvisionGo, if_neg hn, hlook]
  exact ⟨_, rfl, rfl, rfl, rfl, rfl⟩

/-- C5, witness at a concrete registry entry and suffix. -/
theorem sqldb_C5_existing_server_witness :
    ∃ pc, (preProvisionGo
        ⟨fun _ => "u0", fun _ => "id0", fun _ => "pw0"⟩
        (.ok "database.windows.net")
        [("prod", ⟨"prodsrv", "rg1", "eastus", "admin1", "secret1"⟩)]
        (.mssqlPC emptyProvisioningContext)
        (.mssqlPP ⟨"prod", "", ""⟩)).2 = .ok pc ∧
      pc.AdministratorLogin = "admin1" ∧
      pc.AdministratorLoginPassword = "secret1" ∧
      pc.IsNewServer = false ∧
      pc.FullyQualifiedDomainName = "prodsrv" ++ "." ++ "database.windows.net" :=
  sqldb_C5_existing_server
    ⟨fun _ => "u0", fun _ => "id0", fun _ => "pw0"⟩
    [("prod", ⟨"prodsrv", "rg1", "eastus", "admin1", "secret1"⟩)]
    "database.windows.net" ⟨"prod", "", ""⟩ emptyProvisioningContext
    ⟨"prodsrv", "rg1", "eastus", "admin1", "secret1"⟩
    (by decide) (by decide)

/-! ## Claim C6 -/

/-- C6: for a request with empty server name, `preProvision` succeeds with
the new-server flag set, the deployment identifier, server name,
administrator login, password and database name all taken from the
generation collaborators (and hence non-empty whenever those produce
non-empty values, as uuid/identifier/password generation does), and the
fully-qualified domain name left as it was in the empty initial context,
i.e. unset. -/
theorem sqldb_C6_new_server (g : Generator) (env : Except String String)
    (servers : Registry) (pp : ProvisioningParameters)
    (pc0 : MssqlProvisioningContext)
    (hn : pp.ServerName = "")
    (hfq : pc0.FullyQualifiedDomainName = "")
    (hu0 : g.uuids 0 ≠ "") (hu1 : g.uuids 1 ≠ "")
    (hi0 : g.identifiers 0 ≠ "") (hi1 : g.identifiers 1 ≠ "")
    (hp0 : g.passwords 0 ≠ "") :
    ∃ pc, (preProvisionGo g env servers (.mssqlPC pc0)
        (.mssqlPP pp)).2 = .ok pc ∧
      pc.IsNewServer = true ∧
      pc.ARMDeploymentName = g.uuids 0 ∧ pc.ARMDeploymentName ≠ "" ∧
      pc.ServerName = g.uuids 1 ∧ pc.ServerName ≠ "" ∧
      pc.AdministratorLogin = g.identifiers 0 ∧ pc.AdministratorLogin ≠ "" ∧
      pc.AdministratorLoginPassword = g.passwords 0 ∧
      pc.AdministratorLoginPassword ≠ "" ∧
      pc.DatabaseName = g.identifiers 1 ∧ pc.DatabaseName ≠ "" ∧
      pc.FullyQualifiedDomainName = "" := by
  simp only [preProvisionGo, if_pos hn]
  exact ⟨_, rfl, rfl, rfl, hu0, rfl, hu1, rfl, hi0, rfl, hp0, rfl, hi1, hfq⟩

/-- C6, witness at a concrete generator. -/
theorem sqldb_C6_new_server_witness :
    ∃ pc, (preProvisionGo
        ⟨fun n => if n = 0 then "u0" else "u1",
         fun n => if n = 0 then "id0" else "id1",
         fun _ => "pw0"⟩
        (.ok "database.windows.net") []
        (.mssqlPC emptyProvisioningContext)
        (.mssqlPP ⟨"", "1.2.3.4", "1.2.3.10"⟩)).2 = .ok pc ∧
      pc.IsNewServer = true ∧
      pc.ARMDeploymentName = "u0" ∧ pc.ARMDeploymentName ≠ "" ∧
      pc.ServerName = "u1" ∧ pc.ServerName ≠ "" ∧
      pc.AdministratorLogin = "id0" ∧ pc.AdministratorLogin ≠ "" ∧
      pc.AdministratorLoginPassword = "pw0" ∧
      pc.AdministratorLoginPassword ≠ "" ∧
      pc.DatabaseName = "id1" ∧ pc.DatabaseName ≠ "" ∧
      pc.FullyQualifiedDomainName = "" :=
  sqldb_C6_new_server
    ⟨fun n => if n = 0 then "u0" else "u1",
     fun n => if n = 0 then "id0" else "id1",
     fun _ => "pw0"⟩
    (.ok "database.windows.net") [] ⟨"", "1.2.3.4", "1.2.3.10"⟩
    emptyProvisioningContext rfl rfl
    (by decide) (by decide) (by decide) (by decide) (by decide)

/-! ## Claim C10 -/

/-- C10: in the existing-server scenario the context object is mutated
with the registry entry's credentials before environment resolution is
attempted, so when resolution fails the step returns the error yet the
context object it was given already carries those credentials — the step
is not atomic on this error path. -/
theorem sqldb_C10_env_failure_mutates (g : Generator) (servers : Registry)
    (e : String) (pp : ProvisioningParameters)
    (pc0 : MssqlProvisioningContext) (server : ServerConfig)
    (hn : pp.ServerName ≠ "")
    (hlook : servers.lookup pp.ServerName = some server) :
    (preProvisionGo g (.error e) servers (.mssqlPC pc0)
        (.mssqlPP pp)).2 = .error e ∧
    (preProvisionGo g (.error e) servers (.mssqlPC pc0)
        (.mssqlPP pp)).1 =
      .mssqlPC { pc0 with
        ARMDeploymentName := g.uuids 0
        ServerName := server.ServerName
        IsNewServer := false
        AdministratorLogin := server.AdministratorLogin
        AdministratorLoginPassword := server.AdministratorLoginPassword
        DatabaseName := g.identifiers 0 } ∧
    (server.AdministratorLogin ≠ pc0.AdministratorLogin →
      (preProvisionGo g (.error e) servers (.mssqlPC pc0)
        (.mssqlPP pp)).1 ≠ .mssqlPC pc0) := by
  simp only [preProvisionGo, if_neg hn, hlook]
  refine ⟨by trivial, by trivial, ?_⟩
  intro hdiff hc
  apply hdiff
  have := congrArg (fun v => match v with
    | PCValue.mssqlPC pc => pc.AdministratorLogin
    | PCValue.otherPC => "") hc
  exact this

/-- C10, witness: with a failing environment resolver the step errors while
the context state already holds the registry credentials. -/
theorem sqldb_C10_env_failure_mutates_witness :
    (preProvisionGo ⟨fun _ => "u0", fun _ => "id0", fun _ => "pw0"⟩
        (.error "bad environment")
        [("prod", ⟨"prodsrv", "rg1", "eastus", "admin1", "secret1"⟩)]
        (.mssqlPC emptyProvisioningContext)
        (.mssqlPP ⟨"prod", "", ""⟩)).2 = .error "bad environment" ∧
    (preProvisionGo ⟨fun _ => "u0", fun _ => "id0", fun _ => "pw0"⟩
        (.error "bad environment")
        [("prod", ⟨"prodsrv", "rg1", "eastus", "admin1", "secret1"⟩)]
        (.mssqlPC emptyProvisioningContext)
        (.mssqlPP ⟨"prod", "", ""⟩)).1 =
      .mssqlPC ⟨"u0", "prodsrv", false, "admin1", "secret1", "id0", ""⟩ :=
  ⟨(sqldb_C10_env_failure_mutates
      ⟨fun _ => "u0", fun _ => "id0", fun _ => "pw0"⟩
      [("prod", ⟨"prodsrv", "rg1", "eastus", "admin1", "secret1"⟩)]
      "bad environment" ⟨"prod", "", ""⟩ emptyProvisioningContext
      ⟨"prodsrv", "rg1", "eastus", "admin1", "secret1"⟩
      (by decide) (by decide)).1,
   (sqldb_C10_env_failure_mutates
      ⟨fun _ => "u0", fun _ => "id0", fun _ => "pw0"⟩
      [("prod", ⟨"prodsrv", "rg1", "eastus", "admin1", "secret1"⟩)]
      "bad environment" ⟨"prod", "", ""⟩ emptyProvisioningContext
      ⟨"prodsrv", "rg1", "eastus", "admin1", "secret1"⟩
      (by decide) (by decide)).2.1⟩

/-! ## Claim C8 -/

/-- C8: in the existing-server scenario (new-server flag false, server
registered) the deployment engine is invoked exactly once, with the
existing-server template, the registry entry's resource group and location,
and a parameter map whose keys are exactly the five always-present ones —
no firewall keys — and the context object's fully-qualified domain name is
left untouched (the context object is not modified at all by this step). -/
theorem sqldb_C8_existing_server_deploy (deployer : Deployer)
    (servers : Registry) (inst : ServiceInstance) (plan : Plan)
    (pc : MssqlProvisioningContext) (pp : ProvisioningParameters)
    (server : ServerConfig)
    (hpc : inst.ProvisioningContext = .mssqlPC pc)
    (hpp : inst.ProvisioningParameters = .mssqlPP pp)
    (hnew : pc.IsNewServer = false)
    (hlook : servers.lookup pp.ServerName = some server) :
    (deployARMTemplateGo deployer servers inst plan).1.length = 1 ∧
    (∀ call ∈ (deployARMTemplateGo deployer servers inst plan).1,
      call.template = .existingServer ∧
      call.resourceGroup = server.ResourceGroupName ∧
      call.location = server.Location ∧
      call.params.map Prod.fst =
        ["serverName", "databaseName", "edition",
         "requestedServiceObjectiveName", "maxSizeBytes"] ∧
      "firewallStartIpAddress" ∉ call.params.map Prod.fst ∧
      "firewallEndIpAddress" ∉ call.params.map Prod.fst) ∧
    (deployARMTemplateGo deployer servers inst plan).2.1 = .mssqlPC pc := by
  simp only [deployARMTemplateGo, hpc, hpp, hlook]
  rw [if_neg (by simp [hnew])]
  split
  · refine ⟨by trivial, ?_, by trivial⟩
    intro call hcall
    simp only [List.mem_singleton] at hcall
    subst hcall
    refine ⟨rfl, rfl, rfl, by simp, by simp, by simp⟩
  · refine ⟨by trivial, ?_, by trivial⟩
    intro call hcall
    simp only [List.mem_singleton] at hcall
    subst hcall
    refine ⟨rfl, rfl, rfl, by simp, by simp, by simp⟩

/-- C8, witness at a concrete existing-server instance with a succeeding
engine. -/
theorem sqldb_C8_existing_server_deploy_witness :
    (deployARMTemplateGo (fun _ => .ok [])
        [("prod", ⟨"prodsrv", "rg1", "eastus", "admin1", "secret1"⟩)]
        ⟨.mssqlPC ⟨"u0", "prodsrv", false, "admin1", "secret1", "id0",
            "prodsrv.database.windows.net"⟩,
         .mssqlPP ⟨"prod", "", ""⟩, ⟨"rgreq", "westus", []⟩⟩ ⟨[]⟩).1.length = 1 ∧
    (deployARMTemplateGo (fun _ => .ok [])
        [("prod", ⟨"prodsrv", "rg1", "eastus", "admin1", "secret1"⟩)]
        ⟨.mssqlPC ⟨"u0", "prodsrv", false, "admin1", "secret1", "id0",
            "prodsrv.database.windows.net"⟩,
         .mssqlPP ⟨"prod", "", ""⟩, ⟨"rgreq", "westus", []⟩⟩ ⟨[]⟩).2.1 =
      .mssqlPC ⟨"u0", "prodsrv", false, "admin1", "secret1", "id0",
        "prodsrv.database.windows.net"⟩ :=
  ⟨(sqldb_C8_existing_server_deploy (fun _ => .ok [])
      [("prod", ⟨"prodsrv", "rg1", "eastus", "admin1", "secret1"⟩)]
      ⟨.mssqlPC ⟨"u0", "prodsrv", false, "admin1", "secret1", "id0",
          "prodsrv.database.windows.net"⟩,
       .mssqlPP ⟨"prod", "", ""⟩, ⟨"rgreq", "westus", []⟩⟩ ⟨[]⟩
      ⟨"u0", "prodsrv", false, "admin1", "secret1", "id0",
        "prodsrv.database.windows.net"⟩ ⟨"prod", "", ""⟩
      ⟨"prodsrv", "rg1", "eastus", "admin1", "secret1"⟩
      rfl rfl rfl (by decide)).1,
   (sqldb_C8_existing_server_deploy (fun _ => .ok [])
      [("prod", ⟨"prodsrv", "rg1", "eastus", "admin1", "secret1"⟩)]
      ⟨.mssqlPC ⟨"u0", "prodsrv", false, "admin1", "secret1", "id0",
          "prodsrv.database.windows.net"⟩,
       .mssqlPP ⟨"prod", "", ""⟩, ⟨"rgreq", "westus", []⟩⟩ ⟨[]⟩
      ⟨"u0", "prodsrv", false, "admin1", "secret1", "id0",
        "prodsrv.database.windows.net"⟩ ⟨"prod", "", ""⟩
      ⟨"prodsrv", "rg1", "eastus", "admin1", "secret1"⟩
      rfl rfl rfl (by decide)).2.2⟩

/-! ## Claim C9 -/

/-- C9: in the new-server scenario, when the engine call succeeds the
`fullyQualifiedDomainName` output, if present as a string, is stored into
the context's fully-qualified domain name field and the updated context is
returned; if that output is absent or not a string, the step returns an
error. -/
theorem sqldb_C9_new_server_fqdn (deployer : Deployer) (servers : Registry)
    (inst : ServiceInstance) (plan : Plan)
    (pc : MssqlProvisioningContext) (pp : ProvisioningParameters)
    (outputs : List (String × GoValue))
    (hpc : inst.ProvisioningContext = .mssqlPC pc)
    (hpp : inst.ProvisioningParameters = .mssqlPP pp)
    (hnew : pc.IsNewServer = true)
    (hdep : deployer
      { deploymentName := pc.ARMDeploymentName
        resourceGroup := inst.StandardProvisioningContext.ResourceGroup
        location := inst.StandardProvisioningContext.Location
        template := .newServer
        params := buildARMTemplateParameters plan pc pp
        tags := inst.StandardProvisioningContext.Tags } = .ok outputs) :
    (∀ s, mapGet outputs "fullyQualifiedDomainName" = .str s →
      (deployARMTemplateGo deployer servers inst plan).2.2 =
        .ok { pc with FullyQualifiedDomainName := s } ∧
      (deployARMTemplateGo deployer servers inst plan).2.1 =
        .mssqlPC { pc with FullyQualifiedDomainName := s }) ∧
    ((∀ s, mapGet outputs "fullyQualifiedDomainName" ≠ .str s) →
      ∃ msg, (deployARMTemplateGo deployer servers inst plan).2.2 =
        .error msg) := by
  simp only [deployARMTemplateGo, hpc, hpp]
  rw [if_pos hnew]
  simp only [hdep]
  split
  case h_1 fqdn heq =>
    constructor
    · intro s hs
      rw [heq] at hs
      cases hs
      exact ⟨by trivial, by trivial⟩
    · intro hnone
      exact absurd heq (hnone fqdn)
  case h_2 hne =>
    constructor
    · intro s hs
      exact (hne s hs).elim
    · intro _
      exact ⟨_, by trivial⟩

/-- C9, witness: a succeeding engine returning a string domain-name output
has it folded into the returned context. -/
theorem sqldb_C9_new_server_fqdn_witness :
    (deployARMTemplateGo
        (fun _ => .ok [("fullyQualifiedDomainName", .str "x.database.windows.net")])
        [] ⟨.mssqlPC ⟨"u0", "u1", true, "id0", "pw0", "id1", ""⟩,
            .mssqlPP ⟨"", "1.2.3.4", "1.2.3.10"⟩,
            ⟨"rgreq", "westus", []⟩⟩ ⟨[]⟩).2.2 =
      .ok ⟨"u0", "u1", true, "id0", "pw0", "id1", "x.database.windows.net"⟩ :=
  ((sqldb_C9_new_server_fqdn
      (fun _ => .ok [("fullyQualifiedDomainName", .str "x.database.windows.net")])
      [] ⟨.mssqlPC ⟨"u0", "u1", true, "id0", "pw0", "id1", ""⟩,
          .mssqlPP ⟨"", "1.2.3.4", "1.2.3.10"⟩,
          ⟨"rgreq", "westus", []⟩⟩ ⟨[]⟩
      ⟨"u0", "u1", true, "id0", "pw0", "id1", ""⟩
      ⟨"", "1.2.3.4", "1.2.3.10"⟩
      [("fullyQualifiedDomainName", .str "x.database.windows.net")]
      rfl rfl rfl rfl).1 "x.database.windows.net" (by decide)).1
